import Mathlib

set_option maxHeartbeats 1000000

/-!
Shallow embedding of the web CAD viewer core (App.tsx, ModelList.tsx /
ModelViewer.tsx): view modes and material creation, the model-delete
fallback, the load pipeline's format dispatch, the React effect
dependency lists that decide when the model load re-runs, the
ModelViewer fetch-effect state machine, the object-URL lifecycle, the
normalize (center + uniform scale) math, camera auto-framing, and
vertex-normal computation.
-/

namespace CadViewer

/-! ## View modes and materials (createMaterial in ModelViewer) -/

/-- The three view modes of the viewer: 'normal' | 'wireframe' | 'x-ray'. -/
inductive ViewMode where
  | normal
  | wireframe
  | xray
deriving DecidableEq, Repr

/-- Which three.js material class createMaterial instantiates. -/
inductive MaterialKind where
  | standard
  | phong
deriving DecidableEq, Repr

/-- The fields of the material description produced by createMaterial,
including the three.js defaults for fields the code leaves unset
(opacity 1, transparent false, depthWrite true, front side only,
wireframe false). -/
structure MaterialSpec where
  kind : MaterialKind
  color : String
  metalness : Option ℚ
  roughness : Option ℚ
  wireframe : Bool
  opacity : ℚ
  transparent : Bool
  depthWrite : Bool
  doubleSided : Bool
deriving DecidableEq, Repr

/-- createMaterial from the Model component: a switch on the view mode,
closing over the current objectColor. -/
def createMaterial (mode : ViewMode) (objectColor : String) : MaterialSpec :=
  match mode with
  | .wireframe =>
      { kind := .standard, color := objectColor, metalness := some (3/10),
        roughness := some (1/2), wireframe := true, opacity := 1,
        transparent := false, depthWrite := true, doubleSided := false }
  | .xray =>
      { kind := .phong, color := objectColor, metalness := none,
        roughness := none, wireframe := false, opacity := 1/2,
        transparent := true, depthWrite := false, doubleSided := true }
  | .normal =>
      { kind := .standard, color := objectColor, metalness := some (3/10),
        roughness := some (1/2), wireframe := false, opacity := 1,
        transparent := false, depthWrite := true, doubleSided := false }

/-! ## Model list and delete fallback (handleModelDelete in App) -/

/-- A stored model record as App.tsx sees it (ids compared as strings,
via id.toString()). -/
structure StoredModel where
  id : String
  name : String
  file_format : String
deriving DecidableEq, Repr

/-- handleModelDelete from App.tsx, success path: the model list is
filtered, and if the deleted model was active, the first remaining
model (or null) becomes active; otherwise the selection is unchanged.
Returns (new model list, new active id). -/
def handleModelDelete (models : List StoredModel) (activeModelId : Option String)
    (modelId : String) : List StoredModel × Option String :=
  let remaining := models.filter (fun m => m.id ≠ modelId)
  (remaining,
    if activeModelId = some modelId then
      match remaining with
      | [] => none
      | m :: _ => some m.id
    else activeModelId)

/-! ## Format dispatch and pipeline ordering (ModelViewer + Model) -/

/-- The observable steps of a model load, in the order the code performs
them: ModelViewer fetches metadata, then downloads the bytes (blob),
then the Model component dispatches on the declared format. -/
inductive LoadStep where
  | fetchMeta
  | fetchBytes
  | parseStl
  | parseObj
  | unsupportedError
deriving DecidableEq, Repr

/-- The format dispatch in the Model component: exact (case-sensitive)
string comparison against 'stl' then 'obj', anything else is the
unsupported-format error branch. -/
def modelFormatStep (fileFormat : String) : LoadStep :=
  if fileFormat = "stl" then .parseStl
  else if fileFormat = "obj" then .parseObj
  else .unsupportedError

/-- The full load pipeline for one model id: ModelViewer's fetch effect
always fetches metadata and downloads the blob before the Model
component ever looks at the format. -/
def viewerLoadSteps (fileFormat : String) : List LoadStep :=
  [.fetchMeta, .fetchBytes, modelFormatStep fileFormat]

/-! ## Setter side effects: React effect dependency lists -/

/-- The ModelViewer + Model state slices touched by the setters, with
the props that feed the Model component's load effect. -/
structure ViewerUiState where
  modelId : Option String
  modelUrl : Option String
  fileFormat : String
  viewMode : ViewMode
  objectColor : String
  autoRotate : Bool
deriving DecidableEq, Repr

/-- The dependency list of the Model component's load effect, exactly as
written in the code: [url, fileFormat, viewMode]. The effect (fetch
from the object URL, parse, normalize) re-runs iff this tuple changes. -/
def modelLoadDeps (s : ViewerUiState) : Option String × String × ViewMode :=
  (s.modelUrl, s.fileFormat, s.viewMode)

/-- The dependency list of ModelViewer's fetch effect: [modelId]. The
metadata fetch + byte download re-run iff this changes. -/
def viewerFetchDeps (s : ViewerUiState) : Option String :=
  s.modelId

/-- setViewMode: updates only the viewMode state slice. -/
def setViewMode (m : ViewMode) (s : ViewerUiState) : ViewerUiState :=
  { s with viewMode := m }

/-- setObjectColor: updates only the objectColor state slice. -/
def setObjectColor (c : String) (s : ViewerUiState) : ViewerUiState :=
  { s with objectColor := c }

/-- setAutoRotate: updates only the autoRotate state slice. -/
def setAutoRotate (b : Bool) (s : ViewerUiState) : ViewerUiState :=
  { s with autoRotate := b }

/-- A state change re-triggers the Model load effect exactly when the
effect's dependency tuple differs. -/
def triggersModelReload (before after : ViewerUiState) : Prop :=
  modelLoadDeps before ≠ modelLoadDeps after

/-! ## ModelViewer fetch effect: completion races -/

/-- State of ModelViewer's fetch pipeline. highestToken counts requests
in issue order and liveToken records which request produced the
currently installed modelUrl; both are ghost instrumentation for
stating the ordering property - the code itself keeps no token. -/
structure FetchMachineState where
  highestToken : Nat
  liveToken : Option Nat
  liveUrl : Option Nat
deriving DecidableEq, Repr

/-- Events of the fetch pipeline: a request is issued (modelId changes,
the effect re-runs and starts a fetch), or the fetch issued as request
number token resolves and delivers its object URL. -/
inductive FetchEvent where
  | request
  | complete (token : Nat) (url : Nat)
deriving DecidableEq, Repr

/-- One step of ModelViewer's fetch pipeline as coded: a completing
fetch calls setModelUrl unconditionally - there is no guard comparing
the completing request against the most recently issued one. -/
def fetchStep (s : FetchMachineState) (e : FetchEvent) : FetchMachineState :=
  match e with
  | .request => { s with highestToken := s.highestToken + 1 }
  | .complete t u => { s with liveToken := some t, liveUrl := some u }

/-- Run the fetch pipeline from an initial state over an event trace. -/
def fetchRun (s : FetchMachineState) (es : List FetchEvent) : FetchMachineState :=
  es.foldl fetchStep s

/-- Initial fetch pipeline state: no request issued, nothing live. -/
def fetchInit : FetchMachineState :=
  { highestToken := 0, liveToken := none, liveUrl := none }

/-! ## Object-URL lifecycle (ModelViewer cleanup closure) -/

/-- State of the object-URL lifecycle. capturedUrl is the modelUrl value
captured by the live effect's cleanup closure - the value modelUrl had
at the render in which the effect ran, not the current one. -/
structure UrlLifecycleState where
  capturedUrl : Option Nat
  liveUrl : Option Nat
  created : List Nat
  revoked : List Nat
deriving DecidableEq, Repr

/-- Events of the URL lifecycle: the selected model changes (the old
effect's cleanup runs, then a new effect is installed whose closure
captures the current modelUrl), a download completes (createObjectURL
+ setModelUrl), or the component unmounts (cleanup runs). -/
inductive UrlEvent where
  | selectModel
  | fetchComplete (url : Nat)
  | unmount
deriving DecidableEq, Repr

/-- One step of the URL lifecycle as coded: cleanup revokes the URL its
closure captured (if any); setModelUrl updates the state but not the
already-installed cleanup closure. -/
def urlStep (s : UrlLifecycleState) (e : UrlEvent) : UrlLifecycleState :=
  match e with
  | .selectModel =>
      { s with revoked := s.revoked ++ s.capturedUrl.toList,
               capturedUrl := s.liveUrl }
  | .fetchComplete u =>
      { s with created := s.created ++ [u], liveUrl := some u }
  | .unmount =>
      { s with revoked := s.revoked ++ s.capturedUrl.toList,
               capturedUrl := none }

/-- Run the URL lifecycle from the mount state over an event trace. -/
def urlRun (es : List UrlEvent) : UrlLifecycleState :=
  es.foldl urlStep { capturedUrl := none, liveUrl := none, created := [], revoked := [] }

/-! ## Center-and-scale normalization (Model component, exact rationals) -/

/-- A 3D vector with exact rational components, modelling the float
vector math of the normalize step. -/
structure Vec3 where
  x : ℚ
  y : ℚ
  z : ℚ
deriving DecidableEq, Repr

/-- Componentwise vector addition. -/
def Vec3.add (a b : Vec3) : Vec3 :=
  ⟨a.x + b.x, a.y + b.y, a.z + b.z⟩

/-- Componentwise vector subtraction. -/
def Vec3.sub (a b : Vec3) : Vec3 :=
  ⟨a.x - b.x, a.y - b.y, a.z - b.z⟩

/-- Componentwise negation. -/
def Vec3.neg (a : Vec3) : Vec3 :=
  ⟨-a.x, -a.y, -a.z⟩

/-- Scalar multiplication. -/
def Vec3.smul (s : ℚ) (a : Vec3) : Vec3 :=
  ⟨s * a.x, s * a.y, s * a.z⟩

/-- Componentwise minimum, as Box3 accumulates its min corner. -/
def Vec3.cmin (a b : Vec3) : Vec3 :=
  ⟨min a.x b.x, min a.y b.y, min a.z b.z⟩

/-- Componentwise maximum, as Box3 accumulates its max corner. -/
def Vec3.cmax (a b : Vec3) : Vec3 :=
  ⟨max a.x b.x, max a.y b.y, max a.z b.z⟩

/-- Min corner of the bounding box of a non-empty vertex list (head v,
tail vs), as computeBoundingBox / Box3.setFromObject computes it. -/
def bboxMin (v : Vec3) (vs : List Vec3) : Vec3 :=
  vs.foldl Vec3.cmin v

/-- Max corner of the bounding box of a non-empty vertex list. -/
def bboxMax (v : Vec3) (vs : List Vec3) : Vec3 :=
  vs.foldl Vec3.cmax v

/-- Box3.getCenter: (min + max) * 0.5. -/
def boxCenter (bmin bmax : Vec3) : Vec3 :=
  Vec3.smul (1/2) (Vec3.add bmin bmax)

/-- Box3.getSize: max - min. -/
def boxSize (bmin bmax : Vec3) : Vec3 :=
  Vec3.sub bmax bmin

/-- Math.max(size.x, size.y, size.z). -/
def maxDim3 (s : Vec3) : ℚ :=
  max (max s.x s.y) s.z

/-- The transform the Model component installs on the mesh: a position
(translation) and a uniform scale. -/
structure Transform where
  translation : Vec3
  scale : ℚ
deriving DecidableEq, Repr

/-- The center of the bounding box of the vertex list v :: vs. -/
def normCenter (v : Vec3) (vs : List Vec3) : Vec3 :=
  boxCenter (bboxMin v vs) (bboxMax v vs)

/-- The largest bounding-box dimension of the vertex list v :: vs. -/
def normMaxDim (v : Vec3) (vs : List Vec3) : ℚ :=
  maxDim3 (boxSize (bboxMin v vs) (bboxMax v vs))

/-- The normalize step of the Model component: position is set to
-center, and scale is set to 2/maxDim when maxDim > 0; otherwise the
scale assignment is skipped and the mesh keeps its default scale 1. -/
def normalizeModel (v : Vec3) (vs : List Vec3) : Transform :=
  { translation := Vec3.neg (normCenter v vs),
    scale := if 0 < normMaxDim v vs then 2 / normMaxDim v vs else 1 }

/-- Applying the mesh transform to a vertex, in three.js object order:
scale first, then translation (world = scale * v + position). -/
def applyTransform (t : Transform) (v : Vec3) : Vec3 :=
  Vec3.add (Vec3.smul t.scale v) t.translation

/-! ## Camera auto-framing (SceneSetup) and vertex normals, over the reals -/

/-- A 3D vector with real components, for the transcendental camera and
normal math (tan, sqrt). -/
structure Vec3R where
  x : ℝ
  y : ℝ
  z : ℝ

/-- Componentwise vector addition. -/
noncomputable def Vec3R.add (a b : Vec3R) : Vec3R :=
  ⟨a.x + b.x, a.y + b.y, a.z + b.z⟩

/-- Componentwise vector subtraction. -/
noncomputable def Vec3R.sub (a b : Vec3R) : Vec3R :=
  ⟨a.x - b.x, a.y - b.y, a.z - b.z⟩

/-- Scalar multiplication. -/
noncomputable def Vec3R.smulR (s : ℝ) (a : Vec3R) : Vec3R :=
  ⟨s * a.x, s * a.y, s * a.z⟩

/-- Vector3.length: the Euclidean norm. -/
noncomputable def Vec3R.len (v : Vec3R) : ℝ :=
  Real.sqrt (v.x ^ 2 + v.y ^ 2 + v.z ^ 2)

/-- Vector3.normalize: divideScalar(length or 1 when the length is 0),
so the zero vector normalizes to itself. -/
noncomputable def Vec3R.normalize (v : Vec3R) : Vec3R :=
  Vec3R.smulR (1 / (if v.len = 0 then 1 else v.len)) v

/-- Vector3.cross. -/
noncomputable def Vec3R.cross (a b : Vec3R) : Vec3R :=
  ⟨a.y * b.z - a.z * b.y, a.z * b.x - a.x * b.z, a.x * b.y - a.y * b.x⟩

/-- An axis-aligned bounding box over the reals. -/
structure BBoxR where
  bmin : Vec3R
  bmax : Vec3R

/-- Box3.getCenter. -/
noncomputable def BBoxR.center (b : BBoxR) : Vec3R :=
  Vec3R.smulR (1/2) (Vec3R.add b.bmin b.bmax)

/-- Box3.getSize. -/
noncomputable def BBoxR.size (b : BBoxR) : Vec3R :=
  Vec3R.sub b.bmax b.bmin

/-- Math.max over the three size components. -/
noncomputable def BBoxR.maxDim (b : BBoxR) : ℝ :=
  max (max b.size.x b.size.y) b.size.z

/-- The camera auto-framing effect in SceneSetup: the controls target is
always set to the box center; when maxDim > 0 the camera position is
set to center + normalize(1,1,1) * distance with
distance = (maxDim/2) / tan(fov/2) * 2.5, and when maxDim = 0 the
camera position is left where it was. Returns (position, target). -/
noncomputable def frameCamera (camPos : Vec3R) (b : BBoxR) (fovRadians : ℝ) :
    Vec3R × Vec3R :=
  if 0 < b.maxDim then
    (Vec3R.add b.center
      (Vec3R.smulR (b.maxDim / 2 / Real.tan (fovRadians / 2) * 2.5)
        (Vec3R.normalize ⟨1, 1, 1⟩)),
     b.center)
  else
    (camPos, b.center)

/-! ## Vertex normals for parsed geometry -/

/-- Modelled from the spec: RawGeometry as produced by the
GeometryLoader (the STLLoader / OBJLoader implementations bundled with
three.js are not part of this repository's sources): vertex positions,
an optional parallel normal list, an optional triangle index list. -/
structure RawGeometry where
  vertices : List Vec3R
  normals : List Vec3R
  indices : List Nat

/-- Group a flat list into consecutive triples, dropping a trailing
partial group. -/
def chunk3 {α : Type} : List α → List (α × α × α)
  | a :: b :: c :: t => (a, b, c) :: chunk3 t
  | _ => []

/-- The triangles of a geometry as index triples: consecutive triples of
the index list when indices are present, otherwise consecutive triples
of vertex positions (triangle soup). -/
def faceIndexTriples (g : RawGeometry) : List (Nat × Nat × Nat) :=
  chunk3 (if g.indices = [] then List.range g.vertices.length else g.indices)

/-- The vertex at a given index (out-of-range reads the zero vector). -/
noncomputable def vertexAt (g : RawGeometry) (i : Nat) : Vec3R :=
  g.vertices.getD i ⟨0, 0, 0⟩

/-- Modelled from the spec: the (area-weighted) face normal of an index
triple, the cross product of two edge vectors. -/
noncomputable def faceNormal (g : RawGeometry) (f : Nat × Nat × Nat) : Vec3R :=
  Vec3R.cross (Vec3R.sub (vertexAt g f.2.1) (vertexAt g f.1))
    (Vec3R.sub (vertexAt g f.2.2) (vertexAt g f.1))

/-- Whether a face (index triple) is adjacent to vertex index i. -/
def faceContains (f : Nat × Nat × Nat) (i : Nat) : Bool :=
  f.1 == i || f.2.1 == i || f.2.2 == i

/-- Modelled from the spec: the sum of the normals of the faces adjacent
to vertex index i (the accumulation computeVertexNormals performs). -/
noncomputable def adjacentNormalSum (g : RawGeometry) (i : Nat) : Vec3R :=
  ((faceIndexTriples g).filter (fun f => faceContains f i)).foldl
    (fun acc f => Vec3R.add acc (faceNormal g f)) ⟨0, 0, 0⟩

/-- Modelled from the spec: computeVertexNormals - each vertex receives
the normalized average (normalized sum) of its adjacent face normals. -/
noncomputable def computeVertexNormals (g : RawGeometry) : List Vec3R :=
  (List.range g.vertices.length).map
    (fun i => Vec3R.normalize (adjacentNormalSum g i))

/-- The guard in the Model component's STL path (and the loader contract
of the spec): when the parsed geometry carries no normal attribute,
computeVertexNormals fills it in; otherwise the geometry is unchanged. -/
noncomputable def ensureNormals (g : RawGeometry) : RawGeometry :=
  if g.normals.isEmpty then { g with normals := computeVertexNormals g } else g

/-! ## Helper lemmas for the normalization proof -/

/-- min distributes over a nonnegative affine map of rationals. -/
theorem min_affine (s t a b : ℚ) (hs : 0 ≤ s) :
    min (s * a + t) (s * b + t) = s * min a b + t := by
  rw [mul_min_of_nonneg _ _ hs, min_add_add_right]

/-- max distributes over a nonnegative affine map of rationals. -/
theorem max_affine (s t a b : ℚ) (hs : 0 ≤ s) :
    max (s * a + t) (s * b + t) = s * max a b + t := by
  rw [mul_max_of_nonneg _ _ hs, max_add_add_right]

/-- Componentwise min commutes with a nonnegative affine vector map. -/
theorem cmin_affine (s : ℚ) (hs : 0 ≤ s) (t a b : Vec3) :
    Vec3.cmin (Vec3.add (Vec3.smul s a) t) (Vec3.add (Vec3.smul s b) t)
      = Vec3.add (Vec3.smul s (Vec3.cmin a b)) t := by
  simp only [Vec3.cmin, Vec3.add, Vec3.smul, Vec3.mk.injEq]
  exact ⟨min_affine _ _ _ _ hs, min_affine _ _ _ _ hs, min_affine _ _ _ _ hs⟩

/-- Componentwise max commutes with a nonnegative affine vector map. -/
theorem cmax_affine (s : ℚ) (hs : 0 ≤ s) (t a b : Vec3) :
    Vec3.cmax (Vec3.add (Vec3.smul s a) t) (Vec3.add (Vec3.smul s b) t)
      = Vec3.add (Vec3.smul s (Vec3.cmax a b)) t := by
  simp only [Vec3.cmax, Vec3.add, Vec3.smul, Vec3.mk.injEq]
  exact ⟨max_affine _ _ _ _ hs, max_affine _ _ _ _ hs, max_affine _ _ _ _ hs⟩

/-- Folding componentwise min over an affinely mapped list equals the
affine image of the fold, for nonnegative scale. -/
theorem foldl_cmin_affine (s : ℚ) (hs : 0 ≤ s) (t : Vec3) (l : List Vec3) :
    ∀ a : Vec3,
      (l.map fun w => Vec3.add (Vec3.smul s w) t).foldl Vec3.cmin
          (Vec3.add (Vec3.smul s a) t)
        = Vec3.add (Vec3.smul s (l.foldl Vec3.cmin a)) t := by
  induction l with
  | nil => intro a; rfl
  | cons w l ih =>
      intro a
      simp only [List.map_cons, List.foldl_cons]
      rw [cmin_affine s hs t a w]
      exact ih (Vec3.cmin a w)

/-- Folding componentwise max over an affinely mapped list equals the
affine image of the fold, for nonnegative scale. -/
theorem foldl_cmax_affine (s : ℚ) (hs : 0 ≤ s) (t : Vec3) (l : List Vec3) :
    ∀ a : Vec3,
      (l.map fun w => Vec3.add (Vec3.smul s w) t).foldl Vec3.cmax
          (Vec3.add (Vec3.smul s a) t)
        = Vec3.add (Vec3.smul s (l.foldl Vec3.cmax a)) t := by
  induction l with
  | nil => intro a; rfl
  | cons w l ih =>
      intro a
      simp only [List.map_cons, List.foldl_cons]
      rw [cmax_affine s hs t a w]
      exact ih (Vec3.cmax a w)

/-- The bounding-box min corner of a transformed vertex list is the
transform of the original min corner, for nonnegative scale. -/
theorem bboxMin_applyTransform (T : Transform) (hs : 0 ≤ T.scale) (v : Vec3)
    (vs : List Vec3) :
    bboxMin (applyTransform T v) (vs.map (applyTransform T))
      = applyTransform T (bboxMin v vs) := by
  simpa [bboxMin, applyTransform] using
    foldl_cmin_affine T.scale hs T.translation vs v

/-- The bounding-box max corner of a transformed vertex list is the
transform of the original max corner, for nonnegative scale. -/
theorem bboxMax_applyTransform (T : Transform) (hs : 0 ≤ T.scale) (v : Vec3)
    (vs : List Vec3) :
    bboxMax (applyTransform T v) (vs.map (applyTransform T))
      = applyTransform T (bboxMax v vs) := by
  simpa [bboxMax, applyTransform] using
    foldl_cmax_affine T.scale hs T.translation vs v

/-- Box size after transforming both corners: the translation cancels
and only the scale remains. -/
theorem boxSize_applyTransform (T : Transform) (a b : Vec3) :
    boxSize (applyTransform T a) (applyTransform T b)
      = Vec3.smul T.scale (boxSize a b) := by
  simp only [boxSize, applyTransform, Vec3.sub, Vec3.add, Vec3.smul, Vec3.mk.injEq]
  refine ⟨by ring, by ring, by ring⟩

/-- The largest dimension scales linearly under nonnegative scaling. -/
theorem maxDim3_smul (s : ℚ) (hs : 0 ≤ s) (v : Vec3) :
    maxDim3 (Vec3.smul s v) = s * maxDim3 v := by
  simp only [maxDim3, Vec3.smul]
  rw [mul_max_of_nonneg _ _ hs, mul_max_of_nonneg _ _ hs]

/-- The largest bounding-box dimension of a transformed vertex list is
the scale times the original one, for nonnegative scale. -/
theorem normMaxDim_applyTransform (T : Transform) (hs : 0 ≤ T.scale) (v : Vec3)
    (vs : List Vec3) :
    normMaxDim (applyTransform T v) (vs.map (applyTransform T))
      = T.scale * normMaxDim v vs := by
  rw [normMaxDim, bboxMin_applyTransform T hs, bboxMax_applyTransform T hs,
    boxSize_applyTransform, maxDim3_smul T.scale hs, normMaxDim]

/-! ## Claim theorems -/

/-- C1: in ModelViewer's fetch pipeline, a completing fetch installs its
result unconditionally, so after requests 1 and 2 where request 2's
result (url 20) arrives first and request 1's result (url 10) arrives
last, the superseded request 1's outcome IS the live state: the live
url is 10 and the live token is 1 even though the highest issued token
is 2. This contradicts the claim that the live state is selected
solely by token match and never by arrival order. -/
theorem stale_fetch_result_installed :
    (fetchRun fetchInit
      [.request, .request, .complete 2 20, .complete 1 10]).liveUrl = some 10 ∧
    (fetchRun fetchInit
      [.request, .request, .complete 2 20, .complete 1 10]).liveToken = some 1 ∧
    (fetchRun fetchInit
      [.request, .request, .complete 2 20, .complete 1 10]).highestToken = 2 :=
  ⟨rfl, rfl, rfl⟩

/-- C5: createMaterial is a pure function of (viewMode, color) with
exactly the claimed table: Normal yields wireframe false / opacity 1 /
single sided, Wireframe yields wireframe true / opacity 1 / single
sided, XRay yields wireframe false / opacity 0.5 / double sided, and
every mode carries the given color through. -/
theorem createMaterial_spec (c : String) :
    ((createMaterial .normal c).wireframe = false ∧
     (createMaterial .normal c).opacity = 1 ∧
     (createMaterial .normal c).doubleSided = false ∧
     (createMaterial .normal c).color = c) ∧
    ((createMaterial .wireframe c).wireframe = true ∧
     (createMaterial .wireframe c).opacity = 1 ∧
     (createMaterial .wireframe c).doubleSided = false ∧
     (createMaterial .wireframe c).color = c) ∧
    ((createMaterial .xray c).wireframe = false ∧
     (createMaterial .xray c).opacity = 1/2 ∧
     (createMaterial .xray c).doubleSided = true ∧
     (createMaterial .xray c).color = c) :=
  ⟨⟨rfl, rfl, rfl, rfl⟩, ⟨rfl, rfl, rfl, rfl⟩, ⟨rfl, rfl, rfl, rfl⟩⟩

/-- C6 counterexample: the format dispatch is case-sensitive, not
case-insensitive as claimed: the format string STL lowercases to the
supported value stl, yet the pipeline ends in the unsupported-format
branch - and only after the metadata fetch and the byte download have
already happened, contradicting the claim that unsupported formats
fail before bytes are read. -/
theorem viewerLoadSteps_case_counterexample :
    "STL".data.map Char.toLower = "stl".data ∧
    viewerLoadSteps "STL" = [.fetchMeta, .fetchBytes, .unsupportedError] :=
  ⟨by decide, rfl⟩

/-- C6 amended: the format is matched case-sensitively against exactly
stl and obj; any other string reaches the unsupported-format error
branch, but only after the metadata fetch and the byte download, which
the pipeline always performs first. -/
theorem viewerLoadSteps_spec (f : String) :
    LoadStep.fetchBytes ∈ viewerLoadSteps f ∧
    (viewerLoadSteps f).take 2 = [.fetchMeta, .fetchBytes] ∧
    (f ≠ "stl" → f ≠ "obj" →
      viewerLoadSteps f = [.fetchMeta, .fetchBytes, .unsupportedError]) := by
  refine ⟨?_, rfl, ?_⟩
  · simp [viewerLoadSteps]
  · intro h1 h2
    simp [viewerLoadSteps, modelFormatStep, h1, h2]

/-- C6 witness: the amended statement applied to the concrete format
string STL. -/
theorem viewerLoadSteps_spec_witness :
    viewerLoadSteps "STL" = [.fetchMeta, .fetchBytes, .unsupportedError] :=
  (viewerLoadSteps_spec "STL").2.2 (by decide) (by decide)

/-- C7 counterexample: viewMode is in the dependency list of the Model
component's load effect, so setViewMode changes that list and
re-triggers the load (fetch from the object URL, re-parse,
re-normalize), contradicting the claim that the three setters never
trigger a reload. -/
theorem setViewMode_triggers_reload :
    triggersModelReload
      ⟨some "m1", some "blob-u1", "stl", .normal, "#00b8d4", false⟩
      (setViewMode .wireframe
        ⟨some "m1", some "blob-u1", "stl", .normal, "#00b8d4", false⟩) := by
  unfold triggersModelReload
  decide

/-- C7 amended: setObjectColor and setAutoRotate leave the Model load
effect's dependency list unchanged (no reload), and none of the three
setters changes the dependency list of ModelViewer's fetch effect (the
token/fetch sequence); only setViewMode re-triggers the Model load
effect. -/
theorem setters_side_effects (s : ViewerUiState) (c : String) (b : Bool)
    (m : ViewMode) :
    modelLoadDeps (setObjectColor c s) = modelLoadDeps s ∧
    modelLoadDeps (setAutoRotate b s) = modelLoadDeps s ∧
    viewerFetchDeps (setViewMode m s) = viewerFetchDeps s ∧
    viewerFetchDeps (setObjectColor c s) = viewerFetchDeps s ∧
    viewerFetchDeps (setAutoRotate b s) = viewerFetchDeps s :=
  ⟨rfl, rfl, rfl, rfl, rfl⟩

/-- C8: the cleanup closure of ModelViewer's fetch effect captures the
modelUrl value of the render in which the effect ran, not the current
one. On the trace select, complete url 1, select, complete url 2,
unmount: url 1 is revoked only at unmount (one cycle late), url 2 is
created but never revoked (released zero times, not exactly once), and
before unmount both created URLs are simultaneously unreleased, so two
non-released handles coexist for the active model. -/
theorem object_url_release_violation :
    urlRun [.selectModel, .fetchComplete 1, .selectModel, .fetchComplete 2,
      .unmount]
      = { capturedUrl := none, liveUrl := some 2, created := [1, 2],
          revoked := [1] } ∧
    (urlRun [.selectModel, .fetchComplete 1, .selectModel,
      .fetchComplete 2]).revoked = [] :=
  ⟨rfl, rfl⟩

/-- C10: deleting a model that is not active leaves the selection
unchanged; deleting the active model makes the first remaining model
active, or clears the selection when no model remains. -/
theorem handleModelDelete_spec (models : List StoredModel)
    (active : Option String) (target : String) :
    (active ≠ some target →
      (handleModelDelete models active target).2 = active) ∧
    (active = some target →
      (∀ m rest, (handleModelDelete models active target).1 = m :: rest →
        (handleModelDelete models active target).2 = some m.id) ∧
      ((handleModelDelete models active target).1 = [] →
        (handleModelDelete models active target).2 = none)) := by
  constructor
  · intro h
    simp [handleModelDelete, h]
  · intro h
    constructor
    · intro m rest hrem
      simp only [handleModelDelete] at hrem ⊢
      rw [if_pos h, hrem]
    · intro hrem
      simp only [handleModelDelete] at hrem ⊢
      rw [if_pos h, hrem]

/-- C10 witness: deleting the active model 1 out of models 1 and 2
selects model 2, the first remaining model. -/
theorem handleModelDelete_spec_witness :
    (handleModelDelete [⟨"1", "a", "stl"⟩, ⟨"2", "b", "obj"⟩]
      (some "1") "1").2 = some "2" :=
  ((handleModelDelete_spec [⟨"1", "a", "stl"⟩, ⟨"2", "b", "obj"⟩]
      (some "1") "1").2 rfl).1 ⟨"2", "b", "obj"⟩ [] (by decide)

/-- C2: for any non-empty vertex list, the normalize step translates by
minus the bounding-box center; when the largest dimension is positive
the uniform scale is 2/maxDim and the transformed vertices have
largest bounding-box dimension exactly 2; when the largest dimension
is zero the scale assignment is skipped and the scale stays 1, with no
division performed. -/
theorem normalizeModel_spec (v : Vec3) (vs : List Vec3) :
    (normalizeModel v vs).translation = Vec3.neg (normCenter v vs) ∧
    (0 < normMaxDim v vs →
      (normalizeModel v vs).scale = 2 / normMaxDim v vs ∧
      normMaxDim (applyTransform (normalizeModel v vs) v)
        (vs.map (applyTransform (normalizeModel v vs))) = 2) ∧
    (normMaxDim v vs = 0 → (normalizeModel v vs).scale = 1) := by
  refine ⟨rfl, ?_, ?_⟩
  · intro h
    have hscale : (normalizeModel v vs).scale = 2 / normMaxDim v vs := by
      simp [normalizeModel, h]
    refine ⟨hscale, ?_⟩
    have hs : 0 ≤ (normalizeModel v vs).scale := by
      rw [hscale]
      positivity
    rw [normMaxDim_applyTransform _ hs, hscale]
    field_simp
  · intro h
    simp [normalizeModel, h]

/-- C2 witness: the two-vertex geometry (0,0,0), (4,2,0) has largest
dimension 4 > 0, and normalize gives it scale 2/4 and a transformed
largest dimension of exactly 2. -/
theorem normalizeModel_spec_witness :
    0 < normMaxDim ⟨0, 0, 0⟩ [⟨4, 2, 0⟩] ∧
    ((normalizeModel ⟨0, 0, 0⟩ [⟨4, 2, 0⟩]).scale
        = 2 / normMaxDim ⟨0, 0, 0⟩ [⟨4, 2, 0⟩] ∧
      normMaxDim (applyTransform (normalizeModel ⟨0, 0, 0⟩ [⟨4, 2, 0⟩]) ⟨0, 0, 0⟩)
        ([⟨4, 2, 0⟩].map (applyTransform (normalizeModel ⟨0, 0, 0⟩ [⟨4, 2, 0⟩])))
        = 2) := by
  have hpos : 0 < normMaxDim ⟨0, 0, 0⟩ [⟨4, 2, 0⟩] := by
    norm_num [normMaxDim, bboxMin, bboxMax, boxSize, maxDim3, Vec3.cmin,
      Vec3.cmax, Vec3.sub, min_def, max_def]
  exact ⟨hpos, (normalizeModel_spec ⟨0, 0, 0⟩ [⟨4, 2, 0⟩]).2.1 hpos⟩

/-- C3: when the bounding box has positive largest dimension, the camera
framing effect sets the target to the box center and the camera
position to center + normalize(1,1,1) * distance, where
distance = (maxDim/2) / tan(fov/2) * 2.5. -/
theorem frameCamera_spec (camPos : Vec3R) (b : BBoxR) (fovRadians : ℝ)
    (h : 0 < b.maxDim) :
    frameCamera camPos b fovRadians =
      (Vec3R.add b.center
        (Vec3R.smulR (b.maxDim / 2 / Real.tan (fovRadians / 2) * 2.5)
          (Vec3R.normalize ⟨1, 1, 1⟩)),
       b.center) := by
  rw [frameCamera, if_pos h]

/-- C3 witness: for the box of size (2,2,2), fov pi/2 and margin 2.5 the
distance is exactly (1 / tan(pi/4)) * 2.5 = 2.5, and the pose is
center + normalize(1,1,1) * 2.5 with target at the center. -/
theorem frameCamera_spec_witness :
    0 < BBoxR.maxDim ⟨⟨0, 0, 0⟩, ⟨2, 2, 2⟩⟩ ∧
    frameCamera ⟨0, 0, 5⟩ ⟨⟨0, 0, 0⟩, ⟨2, 2, 2⟩⟩ (Real.pi / 2) =
      (Vec3R.add (BBoxR.center ⟨⟨0, 0, 0⟩, ⟨2, 2, 2⟩⟩)
        (Vec3R.smulR 2.5 (Vec3R.normalize ⟨1, 1, 1⟩)),
       BBoxR.center ⟨⟨0, 0, 0⟩, ⟨2, 2, 2⟩⟩) := by
  have hmd : BBoxR.maxDim ⟨⟨0, 0, 0⟩, ⟨2, 2, 2⟩⟩ = 2 := by
    norm_num [BBoxR.maxDim, BBoxR.size, Vec3R.sub]
  have hpos : 0 < BBoxR.maxDim ⟨⟨0, 0, 0⟩, ⟨2, 2, 2⟩⟩ := by
    rw [hmd]
    norm_num
  refine ⟨hpos, ?_⟩
  rw [frameCamera_spec _ _ _ hpos, hmd]
  have hfov : Real.pi / 2 / 2 = Real.pi / 4 := by ring
  rw [hfov, Real.tan_pi_div_four]
  norm_num

/-- C4 counterexample: for a degenerate bounding box (maxDim = 0) the
framing effect does NOT return a fixed default pose: the camera
position is simply left unchanged, so two different prior camera
positions yield two different results - the returned pose depends on
the prior camera and is not the claimed center-plus-fixed-offset pose. -/
theorem frameCamera_not_fixed_default_pose :
    (frameCamera ⟨7, 0, 0⟩ ⟨⟨0, 0, 0⟩, ⟨0, 0, 0⟩⟩ (Real.pi / 2)).1 = ⟨7, 0, 0⟩ ∧
    (frameCamera ⟨8, 0, 0⟩ ⟨⟨0, 0, 0⟩, ⟨0, 0, 0⟩⟩ (Real.pi / 2)).1 = ⟨8, 0, 0⟩ ∧
    (⟨7, 0, 0⟩ : Vec3R) ≠ ⟨8, 0, 0⟩ := by
  have hmd : BBoxR.maxDim ⟨⟨0, 0, 0⟩, ⟨0, 0, 0⟩⟩ = 0 := by
    norm_num [BBoxR.maxDim, BBoxR.size, Vec3R.sub]
  have hnot : ¬ 0 < BBoxR.maxDim ⟨⟨0, 0, 0⟩, ⟨0, 0, 0⟩⟩ := by
    rw [hmd]
    exact lt_irrefl 0
  refine ⟨?_, ?_, ?_⟩
  · rw [frameCamera, if_neg hnot]
  · rw [frameCamera, if_neg hnot]
  · intro hco
    have hx := congrArg Vec3R.x hco
    norm_num at hx

/-- C4 amended: when the bounding box has largest dimension zero, the
framing effect performs no division by zero: it sets the target to the
box center and leaves the camera position unchanged; no default offset
pose is installed. -/
theorem frameCamera_degenerate_spec (camPos : Vec3R) (b : BBoxR)
    (fovRadians : ℝ) (h : b.maxDim = 0) :
    frameCamera camPos b fovRadians = (camPos, b.center) := by
  rw [frameCamera, if_neg (by rw [h]; exact lt_irrefl 0)]

/-- C4 witness: the amended statement applied to a concrete coincident
box and camera position. -/
theorem frameCamera_degenerate_spec_witness :
    frameCamera ⟨7, 0, 0⟩ ⟨⟨1, 2, 3⟩, ⟨1, 2, 3⟩⟩ 1
      = (⟨7, 0, 0⟩, BBoxR.center ⟨⟨1, 2, 3⟩, ⟨1, 2, 3⟩⟩) :=
  frameCamera_degenerate_spec _ _ _
    (by norm_num [BBoxR.maxDim, BBoxR.size, Vec3R.sub])

/-- C9: for a geometry that supplies no normals, the loader computes one
normal per vertex - the result carries exactly vertices.length normals
and the i-th normal is the normalized sum (normalized average) of the
normals of the faces adjacent to vertex i. -/
theorem ensureNormals_spec (g : RawGeometry) (h : g.normals = []) :
    (ensureNormals g).normals.length = g.vertices.length ∧
    ∀ i, i < g.vertices.length →
      (ensureNormals g).normals[i]?
        = some (Vec3R.normalize (adjacentNormalSum g i)) := by
  have hE : g.normals.isEmpty = true := by
    rw [h]
    rfl
  constructor
  · simp [ensureNormals, hE, computeVertexNormals]
  · intro i hi
    simp [ensureNormals, hE, computeVertexNormals, List.getElem?_map,
      List.getElem?_range hi]

/-- C9 witness: a single normal-less triangle comes out of the loader
with one normal per vertex. -/
theorem ensureNormals_spec_witness :
    (ensureNormals ⟨[⟨0, 0, 0⟩, ⟨1, 0, 0⟩, ⟨0, 1, 0⟩], [], []⟩).normals.length
      = 3 := by
  have h := (ensureNormals_spec ⟨[⟨0, 0, 0⟩, ⟨1, 0, 0⟩, ⟨0, 1, 0⟩], [], []⟩ rfl).1
  simpa using h

end CadViewer
